import Mathlib

/-!
Shallow embedding of `src/bldr/repo/client.rs`: the repository HTTP client of
bldr (identifier-to-URL resolution, streaming download with temp-file staging
and atomic rename, sized-body upload, progress rendering).  External effects
(the hyper HTTP transport, the filesystem, the SHA-256 digest of the crypto
crate) are modelled as explicit environments and parameters.  A `write` call
on the buffered writer may, per the contract of the standard Write trait,
report fewer bytes written than it was given; the environment therefore
records the outcome of each write call.
-/

namespace RepoClient

/-- Package identifier as used by the client: origin and name with optional
version and release (`package::PackageIdent`). -/
structure PackageIdent where
  origin : String
  name : String
  version : Option String
  release : Option String
deriving DecidableEq, Repr

/-- Modelled from the spec: `PackageIdent::fully_qualified` is not under
`src/`; the spec defines fully qualified as both version and release
present. -/
def PackageIdent.fully_qualified (p : PackageIdent) : Bool :=
  p.version.isSome && p.release.isSome

/-- Modelled from the spec: the Display rendering of `PackageIdent` (its
canonical string form) is not under `src/`; the spec renders the present
components joined by slashes, e.g. `core/foo/1.0.0/20160101000000` and
`core/foo`. -/
def PackageIdent.render (p : PackageIdent) : String :=
  match p.version, p.release with
  | some v, some r => p.origin ++ "/" ++ p.name ++ "/" ++ v ++ "/" ++ r
  | some v, none => p.origin ++ "/" ++ p.name ++ "/" ++ v
  | none, _ => p.origin ++ "/" ++ p.name

/-- Error kinds of `error::ErrorKind` reachable from the repo client.  HTTP
status codes are modelled as their numeric value (`Ok` = 200, `NotFound` =
404); local I/O failures are collapsed into one kind, as no claim
distinguishes them. -/
inductive ErrorKind where
  | http (status : Nat)
  | remotePackageNotFound (ident : PackageIdent)
  | noXFilename
  | noFilePart
  | writeSyncFailed
  | ioError
deriving DecidableEq, Repr

/-- Translation of `url_show_package` (client.rs): the show URL is
`{repo}/pkgs/{package}` when fully qualified, else
`{repo}/pkgs/{package}/latest`. -/
def url_show_package (repo : String) (package : PackageIdent) : String :=
  if package.fully_qualified then
    repo ++ "/pkgs/" ++ package.render
  else
    repo ++ "/pkgs/" ++ package.render ++ "/latest"

/-- Translation of `from_char` (client.rs): an empty string for length 0,
otherwise one push of `ch` followed by one push per iteration of
`for _ in 1..length`. -/
def from_char (length : Nat) (ch : Char) : String :=
  if length == 0 then
    ""
  else
    let buf := String.push "" ch
    List.foldl (fun b _ => b.push ch) buf (List.range (length - 1))

/-- Modelled from the spec: the `output_format!` macro with a `preamble`
argument is not under `src/`; the spec renders the progress line as
`{label} {bytesWritten}/{totalLengthText}`. -/
def output_format_preamble (preamble : String) (content : String) : String :=
  preamble ++ " " ++ content

/-- Translation of `progress` (client.rs) as the list of strings it prints:
first `from_char` backspaces covering the byte length of the rendered text,
then the rendered text, with a newline appended when `finished` (println
versus print). -/
def progress (status : String) (written : Int) (length : String) (finished : Bool) : List String :=
  let p := output_format_preamble status (toString written ++ "/" ++ length)
  [from_char p.utf8ByteSize (Char.ofNat 8),
   if finished then p ++ "\n" else p]

/-- Outcome of one `res.read(&mut buf)` call of the hyper response body: a
chunk of bytes (length 0 signals end of stream) or an I/O error. -/
inductive ReadEvent where
  | chunk (bytes : List Nat)
  | ioError
deriving DecidableEq, Repr

/-- Outcome of one `writer.write(&buf[0..len])` call on the buffered writer:
the writer reports `n` bytes written (the Write contract caps the effective
count at the length it was given), or an I/O error. -/
inductive WriteOutcome where
  | ret (n : Nat)
  | ioError
deriving DecidableEq, Repr

/-- Environment of one `download` invocation: the transport connect outcome,
the response status and headers, the sequence of body read outcomes, the
sequence of writer outcomes, and the filesystem outcomes of `File::create`
and `fs::rename`. -/
structure DownloadEnv where
  sendOk : Bool
  status : Nat
  xFileName : Option String
  contentLength : Option Nat
  reads : List ReadEvent
  writes : List WriteOutcome
  createOk : Bool
  renameOk : Bool
deriving DecidableEq, Repr

/-- Next write outcome: the environment list is consulted call by call; once
exhausted, the writer accepts every write in full. -/
def nextWrite (ws : List WriteOutcome) (len : Nat) : WriteOutcome × List WriteOutcome :=
  match ws with
  | [] => (WriteOutcome.ret len, [])
  | o :: rest => (o, rest)

/-- Translation of the read loop of `download` (client.rs): read events are
consumed in order (an exhausted list reads as end of stream); a zero-length
read breaks the loop successfully; a non-empty read is written once, a
reported count of zero raises `WriteSyncFailed`, and otherwise the accepted
prefix of the chunk is appended to the temp-file content.  Returns the bytes
written to the temp file and the error that aborted the loop, if any. -/
def downloadLoop : List ReadEvent → List WriteOutcome → List Nat →
    List Nat × Option ErrorKind
  | [], _, acc => (acc, none)
  | ReadEvent.ioError :: _, _, acc => (acc, some ErrorKind.ioError)
  | ReadEvent.chunk [] :: _, _, acc => (acc, none)
  | ReadEvent.chunk (b :: bs) :: rs, ws, acc =>
    match nextWrite ws (b :: bs).length with
    | (WriteOutcome.ioError, _) => (acc, some ErrorKind.ioError)
    | (WriteOutcome.ret n, ws2) =>
      let w := min n (b :: bs).length
      if w = 0 then
        (acc, some ErrorKind.writeSyncFailed)
      else
        downloadLoop rs ws2 (acc ++ (b :: bs).take w)

/-- Observable result of one `download` invocation: the returned value and
whether the `.tmp` staging file and the final file exist afterwards, with
their contents. -/
structure DownloadState where
  outcome : Except ErrorKind String
  tmpExists : Bool
  tmpContent : List Nat
  finalExists : Bool
  finalContent : List Nat
deriving Repr

/-- Translation of `download` (client.rs): GET the url; a non-Ok status is an
HTTP error; a missing X-Filename header is `NoXFilename`; then create
`{path}/{file_name}.tmp`, run the read loop, and on success rename the temp
file to `{path}/{file_name}`, returning that final path. -/
def download (status : String) (url : String) (path : String) (env : DownloadEnv) :
    DownloadState :=
  if env.sendOk = false then
    ⟨Except.error ErrorKind.ioError, false, [], false, []⟩
  else if env.status ≠ 200 then
    ⟨Except.error (ErrorKind.http env.status), false, [], false, []⟩
  else
    match env.xFileName with
    | none => ⟨Except.error ErrorKind.noXFilename, false, [], false, []⟩
    | some file_name =>
      let tempfile := path ++ "/" ++ file_name ++ ".tmp"
      let finalfile := path ++ "/" ++ file_name
      if env.createOk = false then
        ⟨Except.error ErrorKind.ioError, false, [], false, []⟩
      else
        match downloadLoop env.reads env.writes [] with
        | (content, some e) => ⟨Except.error e, true, content, false, []⟩
        | (content, none) =>
          if env.renameOk then
            ⟨Except.ok finalfile, false, [], true, content⟩
          else
            ⟨Except.error ErrorKind.ioError, true, content, false, []⟩

/-- Archive handle returned by `fetch_package` (`PackageArchive::new`). -/
structure PackageArchive where
  path : String
deriving DecidableEq, Repr

/-- Translation of `fetch_package` (client.rs): download from
`{repo}/pkgs/{package}/download`; an `HTTP(NotFound)` failure becomes
`RemotePackageNotFound(package)`; every other outcome passes through. -/
def fetch_package (repo : String) (package : PackageIdent) (store : String)
    (env : DownloadEnv) : Except ErrorKind PackageArchive :=
  let url := repo ++ "/pkgs/" ++ package.render ++ "/download"
  match (download package.name url store env).outcome with
  | Except.ok file => Except.ok ⟨file⟩
  | Except.error (ErrorKind.http 404) =>
    Except.error (ErrorKind.remotePackageNotFound package)
  | Except.error e => Except.error e

/-- Result of `show_package`: a value, an error, or the panic of
`json::decode(&encoded).unwrap()` on a body that fails to decode. -/
inductive ShowResult (α : Type) where
  | ok (a : α)
  | err (e : ErrorKind)
  | panicked
deriving DecidableEq, Repr

/-- Environment of one `show_package` invocation: transport connect outcome,
response status, body read outcome and body text. -/
structure ShowEnv where
  sendOk : Bool
  status : Nat
  readOk : Bool
  body : String
deriving DecidableEq, Repr

/-- Translation of `show_package` (client.rs): GET the show URL; ANY non-Ok
status returns `RemotePackageNotFound(ident)`; the body is read and decoded
with `.unwrap()`, panicking when the decoder fails.  The decoded metadata
type and the JSON decoder are external collaborators, passed as
parameters. -/
def show_package {α : Type} (repo : String) (ident : PackageIdent) (env : ShowEnv)
    (decode : String → Option α) : ShowResult α :=
  let _url := url_show_package repo ident
  if env.sendOk = false then
    ShowResult.err ErrorKind.ioError
  else if env.status ≠ 200 then
    ShowResult.err (ErrorKind.remotePackageNotFound ident)
  else if env.readOk = false then
    ShowResult.err ErrorKind.ioError
  else
    match decode env.body with
    | some p => ShowResult.ok p
    | none => ShowResult.panicked

/-- Open file handle: byte content plus current seek position. -/
structure FileHandle where
  content : List Nat
  pos : Nat
deriving DecidableEq, Repr

/-- HTTP request assembled by `upload`: the url, the declared sized-body
length (`metadata.len()`), and the bytes actually sent. -/
structure UploadRequest where
  url : String
  declaredLen : Nat
  body : List Nat
deriving DecidableEq, Repr

/-- Translation of `upload` (client.rs): seek the handle to the start,
declare the file length, POST a sized body read from the handle, and map a
non-success status to an HTTP error.  Returns the call result, the handle
after the body was consumed, and the request that was sent. -/
def upload (url : String) (file : FileHandle) (respStatus : Nat) :
    Except ErrorKind Unit × FileHandle × UploadRequest :=
  let f0 : FileHandle := ⟨file.content, 0⟩
  let len := f0.content.length
  let body := (f0.content.drop f0.pos).take len
  let f1 : FileHandle := ⟨f0.content, f0.pos + body.length⟩
  let req : UploadRequest := ⟨url, len, body⟩
  (if 200 ≤ respStatus ∧ respStatus < 300 then Except.ok () else
    Except.error (ErrorKind.http respStatus), f1, req)

/-- Package record as consumed by `put_package`: origin, name, version and
release (all present), and the bytes of its cached archive file. -/
structure Package where
  origin : String
  name : String
  version : String
  release : String
  cacheFile : List Nat
deriving DecidableEq, Repr

/-- Environment of one `put_package` invocation: outcomes of `File::open`
and `read_to_end`, and the response status of the upload POST. -/
structure PutEnv where
  openOk : Bool
  readOk : Bool
  respStatus : Nat
deriving DecidableEq, Repr

/-- Translation of `put_package` (client.rs): open the cached archive file,
read it to the end, digest the bytes read (the SHA-256 of the crypto crate,
passed as a parameter), build
`{repo}/pkgs/{origin}/{name}/{version}/{release}?checksum={digest}` and
upload the same handle.  Returns the call result and the request sent, if
any. -/
def put_package (repo : String) (package : Package)
    (digestFn : List Nat → String) (env : PutEnv) :
    Except ErrorKind Unit × Option UploadRequest :=
  if env.openOk = false then
    (Except.error ErrorKind.ioError, none)
  else
    let file : FileHandle := ⟨package.cacheFile, 0⟩
    if env.readOk = false then
      (Except.error ErrorKind.ioError, none)
    else
      let buffer := file.content.drop file.pos
      let file2 : FileHandle := ⟨file.content, file.pos + buffer.length⟩
      let checksum := digestFn buffer
      let url := repo ++ "/pkgs/" ++ package.origin ++ "/" ++ package.name ++
        "/" ++ package.version ++ "/" ++ package.release ++ "?checksum=" ++ checksum
      let r := upload url file2 env.respStatus
      (r.1, some r.2.2)

/-- Helper: `from_char` builds exactly `n` copies of the character. -/
theorem from_char_eq_replicate (n : Nat) (c : Char) :
    from_char n c = String.mk (List.replicate n c) := by
  unfold from_char
  cases n with
  | zero => rfl
  | succ m =>
    simp only [Nat.succ_ne_zero, beq_iff_eq, if_neg, Nat.add_sub_cancel]
    have key : ∀ (k : Nat) (s : List Char),
        List.foldl (fun b _ => String.push b c) (String.mk s) (List.range k)
          = String.mk (s ++ List.replicate k c) := by
      intro k
      induction k with
      | zero => intro s; simp
      | succ j ih =>
        intro s
        rw [List.range_succ, List.foldl_append]
        simp only [List.foldl_cons, List.foldl_nil, ih]
        simp [String.push, List.replicate_succ']
    have h2 := key m [c]
    simp only [String.push] at h2 ⊢
    simp only [if_false, List.nil_append]
    rw [h2]
    simp [List.replicate_succ]

/-- Helper: a non-Ok response status makes `download` fail with the HTTP
error before any file is touched. -/
theorem download_http_error (status url path : String) (env : DownloadEnv)
    (h1 : env.sendOk = true) (h2 : env.status ≠ 200) :
    download status url path env
      = ⟨Except.error (ErrorKind.http env.status), false, [], false, []⟩ := by
  unfold download
  simp [h1, h2]

/-- Helper: a download failure other than `HTTP(NotFound)` passes through
`fetch_package` unchanged. -/
theorem fetch_package_passthrough (repo store : String) (p : PackageIdent)
    (env : DownloadEnv) (e : ErrorKind)
    (hd : (download p.name (repo ++ "/pkgs/" ++ p.render ++ "/download") store
      env).outcome = Except.error e)
    (hne : e ≠ ErrorKind.http 404) :
    fetch_package repo p store env = Except.error e := by
  unfold fetch_package
  dsimp only
  rw [hd]
  split
  · simp_all
  · rename_i heq
    injection heq with h
    exact absurd h hne
  · simp_all

/-- C10: `from_char n c` is a string of exactly `n` copies of `c`, and in
particular `from_char 0 c` is the empty string. -/
theorem C10_from_char_replicate (n : Nat) (c : Char) :
    from_char n c = String.mk (List.replicate n c) ∧ from_char 0 c = "" :=
  ⟨from_char_eq_replicate n c, rfl⟩

/-- C9: the progress reporter prints the rendered string
`{label} {written}/{length}` preceded by backspace characters (code point 8)
equal in number to the byte length of that string, and the output ends with
a newline exactly when `finished` is true. -/
theorem C9_progress_rendering (label : String) (written : Int) (length : String)
    (finished : Bool) :
    progress label written length finished
      = [String.mk (List.replicate
            (label ++ " " ++ toString written ++ "/" ++ length).utf8ByteSize
            (Char.ofNat 8)),
         (label ++ " " ++ toString written ++ "/" ++ length)
           ++ (if finished then "\n" else "")] := by
  unfold progress output_format_preamble
  dsimp only
  rw [from_char_eq_replicate]
  cases finished <;> simp [String.append_assoc]

/-- C3: the show-URL resolver yields
`{repo}/pkgs/{origin}/{name}/{version}/{release}` when version and release
are both present, `{repo}/pkgs/{origin}/{name}/{version}/latest` when only
the release is missing, and `{repo}/pkgs/{origin}/{name}/latest` when both
are missing. -/
theorem C3_url_show_package (repo : String) (p : PackageIdent) :
    (∀ v r, p.version = some v → p.release = some r →
      url_show_package repo p
        = repo ++ "/pkgs/" ++ p.origin ++ "/" ++ p.name ++ "/" ++ v ++ "/" ++ r)
    ∧ (∀ v, p.version = some v → p.release = none →
      url_show_package repo p
        = repo ++ "/pkgs/" ++ p.origin ++ "/" ++ p.name ++ "/" ++ v ++ "/latest")
    ∧ (p.version = none → p.release = none →
      url_show_package repo p
        = repo ++ "/pkgs/" ++ p.origin ++ "/" ++ p.name ++ "/latest") := by
  refine ⟨?_, ?_, ?_⟩
  · intro v r hv hr
    unfold url_show_package PackageIdent.fully_qualified PackageIdent.render
    rw [hv, hr]
    simp [String.append_assoc]
  · intro v hv hr
    unfold url_show_package PackageIdent.fully_qualified PackageIdent.render
    rw [hv, hr]
    simp [String.append_assoc]
  · intro hv hr
    unfold url_show_package PackageIdent.fully_qualified PackageIdent.render
    rw [hv, hr]
    simp [String.append_assoc]

/-- Witness for C3 at the example inputs given in the spec. -/
theorem C3_url_show_package_witness :
    url_show_package "http://repo.example"
        ⟨"core", "foo", some "1.0.0", some "20160101000000"⟩
      = "http://repo.example/pkgs/core/foo/1.0.0/20160101000000"
    ∧ url_show_package "http://repo.example" ⟨"core", "foo", some "1.0.0", none⟩
      = "http://repo.example/pkgs/core/foo/1.0.0/latest"
    ∧ url_show_package "http://repo.example" ⟨"core", "foo", none, none⟩
      = "http://repo.example/pkgs/core/foo/latest" := by
  refine ⟨?_, ?_, ?_⟩
  · rw [(C3_url_show_package "http://repo.example"
      ⟨"core", "foo", some "1.0.0", some "20160101000000"⟩).1
      "1.0.0" "20160101000000" rfl rfl]
    rfl
  · rw [(C3_url_show_package "http://repo.example"
      ⟨"core", "foo", some "1.0.0", none⟩).2.1 "1.0.0" rfl rfl]
    rfl
  · rw [(C3_url_show_package "http://repo.example"
      ⟨"core", "foo", none, none⟩).2.2 rfl rfl]
    rfl

/-- C5: a response with Ok status but no X-Filename header fails with the
`NoXFilename` error and creates neither the temp file nor the final file. -/
theorem C5_missing_header (status url path : String) (env : DownloadEnv)
    (h1 : env.sendOk = true) (h2 : env.status = 200) (h3 : env.xFileName = none) :
    download status url path env
      = ⟨Except.error ErrorKind.noXFilename, false, [], false, []⟩ := by
  unfold download
  simp [h1, h2, h3]

/-- Witness for C5 at a concrete environment. -/
theorem C5_missing_header_witness :
    download "foo" "http://r/pkgs/core/foo/download" "/store"
        ⟨true, 200, none, some 4, [ReadEvent.chunk [1]], [], true, true⟩
      = ⟨Except.error ErrorKind.noXFilename, false, [], false, []⟩ :=
  C5_missing_header "foo" "http://r/pkgs/core/foo/download" "/store" _ rfl rfl rfl

/-- C6: a write call that reports zero bytes written for a non-empty chunk
aborts the read loop at once with the `WriteSyncFailed` error, whatever
reads and writes would follow and whatever was already written. -/
theorem C6_write_stall (b : Nat) (bs : List Nat) (rs : List ReadEvent)
    (ws : List WriteOutcome) (acc : List Nat) :
    downloadLoop (ReadEvent.chunk (b :: bs) :: rs) (WriteOutcome.ret 0 :: ws) acc
      = (acc, some ErrorKind.writeSyncFailed) := by
  unfold downloadLoop nextWrite
  simp

/-- C7: upload seeks the handle to position 0 and declares the exact file
length, so two consecutive uploads of the same handle send two identical
full bodies whose length is the declared length. -/
theorem C7_upload_twice (url : String) (f : FileHandle) (s1 s2 : Nat) :
    ((upload url f s1).2.2).body = f.content
    ∧ ((upload url f s1).2.2).declaredLen = f.content.length
    ∧ ((upload url ((upload url f s1).2.1) s2).2.2).body = f.content
    ∧ ((upload url ((upload url f s1).2.1) s2).2.2).declaredLen = f.content.length
    ∧ (upload url ((upload url f s1).2.1) s2).2.2 = (upload url f s1).2.2 := by
  unfold upload
  simp

/-- C8: `put_package` reads the whole archive file, digests exactly those
bytes, and sends the whole file to
`{repo}/pkgs/{origin}/{name}/{version}/{release}?checksum={digest}` with the
file length declared. -/
theorem C8_put_package (repo : String) (p : Package) (digestFn : List Nat → String)
    (env : PutEnv) (h1 : env.openOk = true) (h2 : env.readOk = true) :
    (put_package repo p digestFn env).2
      = some ⟨repo ++ "/pkgs/" ++ p.origin ++ "/" ++ p.name ++ "/" ++ p.version ++
          "/" ++ p.release ++ "?checksum=" ++ digestFn p.cacheFile,
          p.cacheFile.length, p.cacheFile⟩ := by
  unfold put_package upload
  simp [h1, h2]

/-- C2 counterexample: `show_package` on a status-500 response returns the
`RemotePackageNotFound` error, not the generic HTTP error with the status
code that the claim requires for non-404 statuses. -/
theorem C2_show_package_counterexample :
    show_package "http://r" ⟨"core", "foo", none, none⟩ ⟨true, 500, true, ""⟩
        (fun _ => (none : Option Unit))
      = ShowResult.err (ErrorKind.remotePackageNotFound ⟨"core", "foo", none, none⟩)
    ∧ ShowResult.err (ErrorKind.remotePackageNotFound ⟨"core", "foo", none, none⟩)
      ≠ (ShowResult.err (ErrorKind.http 500) : ShowResult Unit) := by
  constructor
  · rfl
  · decide

/-- C2 as amended: `fetch_package` turns exactly the 404 download failure
into `RemotePackageNotFound(ident)` and surfaces every other non-success
status as the generic HTTP error with that code, while `show_package` turns
EVERY non-Ok status — 404 or not — into `RemotePackageNotFound(ident)`. -/
theorem C2_error_translation {α : Type} (repo store : String) (ident : PackageIdent)
    (d1 d2 : DownloadEnv) (senv : ShowEnv) (decode : String → Option α)
    (h1 : d1.sendOk = true) (h2 : d1.status = 404)
    (h3 : d2.sendOk = true) (h4 : d2.status ≠ 200) (h5 : d2.status ≠ 404)
    (h6 : senv.sendOk = true) (h7 : senv.status ≠ 200) :
    fetch_package repo ident store d1
      = Except.error (ErrorKind.remotePackageNotFound ident)
    ∧ fetch_package repo ident store d2
      = Except.error (ErrorKind.http d2.status)
    ∧ show_package repo ident senv decode
      = ShowResult.err (ErrorKind.remotePackageNotFound ident) := by
  refine ⟨?_, ?_, ?_⟩
  · unfold fetch_package
    dsimp only
    rw [download_http_error ident.name
      (repo ++ "/pkgs/" ++ ident.render ++ "/download") store d1 h1 (by omega)]
    rw [h2]
  · have hd : (download ident.name
        (repo ++ "/pkgs/" ++ ident.render ++ "/download") store d2).outcome
        = Except.error (ErrorKind.http d2.status) := by
      rw [download_http_error ident.name
        (repo ++ "/pkgs/" ++ ident.render ++ "/download") store d2 h3 h4]
    exact fetch_package_passthrough repo store ident d2 (ErrorKind.http d2.status)
      hd (fun hc => h5 (by injection hc))
  · unfold show_package
    simp [h6, h7]

/-- Witness for C2 at concrete environments: a 404 fetch, a 500 fetch and a
503 show call. -/
theorem C2_error_translation_witness :
    fetch_package "http://r" ⟨"core", "foo", none, none⟩ "/store"
        ⟨true, 404, some "f", none, [], [], true, true⟩
      = Except.error (ErrorKind.remotePackageNotFound ⟨"core", "foo", none, none⟩)
    ∧ fetch_package "http://r" ⟨"core", "foo", none, none⟩ "/store"
        ⟨true, 500, some "f", none, [], [], true, true⟩
      = Except.error (ErrorKind.http 500)
    ∧ show_package "http://r" ⟨"core", "foo", none, none⟩ ⟨true, 503, true, ""⟩
        (fun _ => (none : Option Unit))
      = ShowResult.err (ErrorKind.remotePackageNotFound ⟨"core", "foo", none, none⟩) :=
  C2_error_translation "http://r" "/store" ⟨"core", "foo", none, none⟩
    ⟨true, 404, some "f", none, [], [], true, true⟩
    ⟨true, 500, some "f", none, [], [], true, true⟩
    ⟨true, 503, true, ""⟩ (fun _ => (none : Option Unit))
    rfl rfl rfl (by decide) (by decide) rfl (by decide)

/-- Helper: one step of the read loop on a non-empty chunk whose write is
accepted with a non-zero count appends the accepted prefix and recurses. -/
theorem downloadLoop_step (b : Nat) (bs : List Nat) (rs : List ReadEvent)
    (n : Nat) (ws : List WriteOutcome) (acc : List Nat)
    (hn : min n (bs.length + 1) ≠ 0) :
    downloadLoop (ReadEvent.chunk (b :: bs) :: rs) (WriteOutcome.ret n :: ws) acc
      = downloadLoop rs ws (acc ++ (b :: bs).take (min n (bs.length + 1))) := by
  conv_lhs => simp only [downloadLoop, nextWrite, List.length_cons]
  rw [if_neg hn]

/-- Helper: an exhausted read list reads as end of stream, ending the loop
without error. -/
theorem downloadLoop_nil (ws : List WriteOutcome) (acc : List Nat) :
    downloadLoop [] ws acc = (acc, none) := rfl

/-- Helper: when every read is a non-empty chunk and the writer accepts every
write in full, the read loop appends the whole body to the accumulator and
reports no error. -/
theorem downloadLoop_all_accepted (chunks : List (List Nat)) (acc : List Nat)
    (h : ∀ c ∈ chunks, c ≠ []) :
    downloadLoop (chunks.map ReadEvent.chunk) [] acc
      = (acc ++ chunks.flatten, none) := by
  induction chunks generalizing acc with
  | nil => simp [downloadLoop]
  | cons c cs ih =>
    obtain ⟨b, bs, rfl⟩ := List.exists_cons_of_ne_nil (h c (List.mem_cons_self c cs))
    show downloadLoop (ReadEvent.chunk (b :: bs) :: cs.map ReadEvent.chunk) [] acc
      = (acc ++ ((b :: bs) :: cs).flatten, none)
    unfold downloadLoop nextWrite
    simp only [List.length_cons, Nat.min_self]
    rw [if_neg (Nat.succ_ne_zero bs.length)]
    rw [show List.take (bs.length + 1) (b :: bs) = b :: bs from by
      simpa using List.take_length (b :: bs)]
    rw [ih (acc ++ (b :: bs)) (fun d hd => h d (List.mem_cons_of_mem _ hd))]
    simp

/-- Helper: when the connect, status, header, create and rename steps all
pass and the read loop ends without error, `download` returns the final path
and exactly the loop content sits at the final path. -/
theorem download_success (label url path fn : String) (env : DownloadEnv)
    (h1 : env.sendOk = true) (h2 : env.status = 200) (h3 : env.xFileName = some fn)
    (h4 : env.createOk = true) (h5 : env.renameOk = true) (content : List Nat)
    (hloop : downloadLoop env.reads env.writes [] = (content, none)) :
    download label url path env
      = ⟨Except.ok (path ++ "/" ++ fn), false, [], true, content⟩ := by
  unfold download
  rw [h1, h2, h3, hloop]
  simp [h4, h5]

/-- C4: for every body and every chunking of it into non-empty reads of at
most the 100000-byte buffer, a download whose writes are all accepted and
whose rename succeeds ends with the final file holding exactly the
concatenation of the chunks — the body byte for byte. -/
theorem C4_final_content (label url path fn : String) (env : DownloadEnv)
    (chunks : List (List Nat))
    (h1 : env.sendOk = true) (h2 : env.status = 200) (h3 : env.xFileName = some fn)
    (h4 : env.createOk = true) (h5 : env.renameOk = true)
    (h6 : env.reads = chunks.map ReadEvent.chunk)
    (h7 : ∀ c ∈ chunks, c ≠ [] ∧ c.length ≤ 100000)
    (h8 : env.writes = []) :
    (download label url path env).outcome = Except.ok (path ++ "/" ++ fn)
    ∧ (download label url path env).finalExists = true
    ∧ (download label url path env).finalContent = chunks.flatten := by
  have hloop := downloadLoop_all_accepted chunks [] (fun c hc => (h7 c hc).1)
  simp only [List.nil_append] at hloop
  have hd := download_success label url path fn env h1 h2 h3 h4 h5
    chunks.flatten (by rw [h6, h8, hloop])
  rw [hd]
  exact ⟨rfl, rfl, rfl⟩

/-- Witness for C4 at a concrete two-chunk body. -/
theorem C4_final_content_witness :
    (download "foo" "http://r/pkgs/core/foo/download" "/store"
        ⟨true, 200, some "foo.tar", some 3,
          [ReadEvent.chunk [10, 20], ReadEvent.chunk [30]], [], true, true⟩).outcome
      = Except.ok "/store/foo.tar"
    ∧ (download "foo" "http://r/pkgs/core/foo/download" "/store"
        ⟨true, 200, some "foo.tar", some 3,
          [ReadEvent.chunk [10, 20], ReadEvent.chunk [30]], [], true, true⟩).finalExists
      = true
    ∧ (download "foo" "http://r/pkgs/core/foo/download" "/store"
        ⟨true, 200, some "foo.tar", some 3,
          [ReadEvent.chunk [10, 20], ReadEvent.chunk [30]], [], true, true⟩).finalContent
      = [10, 20, 30] := by
  have h := C4_final_content "foo" "http://r/pkgs/core/foo/download" "/store"
    "foo.tar"
    ⟨true, 200, some "foo.tar", some 3,
      [ReadEvent.chunk [10, 20], ReadEvent.chunk [30]], [], true, true⟩
    [[10, 20], [30]] rfl rfl rfl rfl rfl rfl (by decide) rfl
  refine ⟨?_, h.2.1, ?_⟩
  · rw [h.1]
    rfl
  · rw [h.2.2]
    rfl

/-- Environment exhibiting the truncation: the body arrives as one
100000-byte read (at least the capacity of the buffered writer, so the write
goes straight to the file), the write call reports only 50000 bytes written,
and the rename succeeds. -/
def shortWriteEnv : DownloadEnv :=
  ⟨true, 200, some "foo.tar", some 100000,
    [ReadEvent.chunk (List.replicate 100000 1)], [WriteOutcome.ret 50000],
    true, true⟩

/-- C1 failing-input evaluation: on `shortWriteEnv` the download reports
success and a file exists at the final path, yet its content is only the
first 50000 of the 100000 body bytes — the body was read to end-of-stream
but NOT written in full, refuting the claim that the final file exists only
when the body was written in full. -/
theorem C1_truncated_file_at_final_path :
    shortWriteEnv.reads = [ReadEvent.chunk (List.replicate 100000 1)]
    ∧ (download "foo" "http://r/pkgs/core/foo/download" "/store"
        shortWriteEnv).outcome = Except.ok "/store/foo.tar"
    ∧ (download "foo" "http://r/pkgs/core/foo/download" "/store"
        shortWriteEnv).finalExists = true
    ∧ (download "foo" "http://r/pkgs/core/foo/download" "/store"
        shortWriteEnv).finalContent = List.replicate 50000 1
    ∧ List.replicate 50000 1 ≠ List.replicate 100000 (1 : Nat) := by
  have hrep : List.replicate 100000 (1 : Nat) = 1 :: List.replicate 99999 1 := by
    rw [show (100000 : Nat) = 99999 + 1 from by norm_num, List.replicate_succ]
  have hloop : downloadLoop shortWriteEnv.reads shortWriteEnv.writes []
      = (List.replicate 50000 1, none) := by
    show downloadLoop [ReadEvent.chunk (List.replicate 100000 1)]
      [WriteOutcome.ret 50000] [] = (List.replicate 50000 1, none)
    rw [hrep]
    rw [downloadLoop_step 1 (List.replicate 99999 1) [] 50000 [] []
      (by simp only [List.length_replicate]; omega)]
    simp only [List.length_replicate, List.nil_append]
    rw [show min 50000 (99999 + 1) = 50000 from by norm_num]
    rw [show List.take 50000 (1 :: List.replicate 99999 1)
        = List.replicate 50000 1 from ?_]
    · exact downloadLoop_nil [] _
    · rw [← hrep, List.take_replicate, Nat.min_eq_left (by norm_num)]
  have hd := download_success "foo" "http://r/pkgs/core/foo/download" "/store"
    "foo.tar" shortWriteEnv rfl rfl rfl rfl rfl (List.replicate 50000 1) hloop
  refine ⟨rfl, ?_, ?_, ?_, ?_⟩
  · rw [hd]
    rfl
  · rw [hd]
  · rw [hd]
  · intro hcontra
    have hlen := congrArg List.length hcontra
    simp only [List.length_replicate] at hlen
    omega

/-- Witness for C8 at a concrete package and digest function. -/
theorem C8_put_package_witness :
    (put_package "http://r" ⟨"core", "foo", "1.0", "2016", [7, 8]⟩
        (fun _ => "abc") ⟨true, true, 200⟩).2
      = some ⟨"http://r/pkgs/core/foo/1.0/2016?checksum=abc", 2, [7, 8]⟩ := by
  rw [C8_put_package "http://r" ⟨"core", "foo", "1.0", "2016", [7, 8]⟩
    (fun _ => "abc") ⟨true, true, 200⟩ rfl rfl]
  rfl
